import Mathlib

/-!
Verification development for the CUDA offload-toolchain driver
(`lib/Driver/ToolChains/Cuda.cpp`): installation detection, version
parsing and policy, libdevice map construction, pipeline/packaging
command construction, and architecture-scoped argument translation.

The C++ code is embedded shallowly: strings are Lean `String`s (with the
LLVM `StringRef` primitives `split`, `rsplit`, `startswith`, `endswith`,
`getAsInteger` modelled over the character list), the virtual filesystem
is a record of pure functions, `std::map` assignment is modelled as a
pointwise function update, and diagnostic emission is recorded in the
returned state.
-/

namespace CudaDriver

/-- `enum class CudaVersion` from `clang/Basic/Cuda.h`, declaration order
`UNKNOWN, CUDA_70, CUDA_75, CUDA_80`; C++ `<`/`>=` compare the underlying
enumerator values. -/
inductive CudaVersion where
  | UNKNOWN
  | CUDA_70
  | CUDA_75
  | CUDA_80
deriving DecidableEq, Repr

def CudaVersion.toNat : CudaVersion → Nat
  | .UNKNOWN => 0
  | .CUDA_70 => 1
  | .CUDA_75 => 2
  | .CUDA_80 => 3

/-- C++ `Version < Other` on the underlying enum value. -/
def CudaVersion.lt (a b : CudaVersion) : Bool :=
  decide (a.toNat < b.toNat)

/-- `llvm::StringRef::startswith`. -/
def strStartsWith (s p : String) : Bool :=
  p.toList.isPrefixOf s.toList

/-- `llvm::StringRef::endswith`. -/
def strEndsWith (s p : String) : Bool :=
  p.toList.isSuffixOf s.toList

/-- `llvm::StringRef::split(c)`: pair of the part before the first
occurrence of `c` and the part after it; if `c` does not occur, the
second component is empty. -/
def splitOnFirstChar : List Char → Char → List Char × List Char
  | [], _ => ([], [])
  | x :: xs, c =>
    if x = c then ([], xs)
    else
      let r := splitOnFirstChar xs c
      (x :: r.1, r.2)

def digitVal (c : Char) : Option Nat :=
  if '0' ≤ c ∧ c ≤ '9' then some (c.toNat - '0'.toNat) else none

def parseDigitsAux : List Char → Nat → Option Nat
  | [], acc => some acc
  | c :: cs, acc =>
    match digitVal c with
    | none => none
    | some d => parseDigitsAux cs (acc * 10 + d)

/-- Unsigned decimal parse: all characters must be digits and the string
must be non-empty, as in `llvm::StringRef::getAsInteger(10, _)`. -/
def parseUnsignedInt10 : List Char → Option Nat
  | [] => none
  | l => parseDigitsAux l 0

/-- Signed decimal parse (`getAsInteger(10, int)`): optional leading
minus sign followed by a non-empty digit string. -/
def parseSignedInt10 : List Char → Option Int
  | '-' :: rest => (parseUnsignedInt10 rest).map (fun n => -(n : Int))
  | l => (parseUnsignedInt10 l).map (fun n => (n : Int))

def cudaVersionLiteral : List Char := "CUDA Version ".toList

/-- `ParseCudaVersionFile` (Cuda.cpp lines 31-52) on the buffer's
character list: require the literal marker text, split
`MAJOR.MINOR[.PATCH]` on the first two dots, parse the two integers, and
recognise exactly the pairs 7.0, 7.5 and 8.0. -/
def parseCudaVersionChars (l : List Char) : CudaVersion :=
  if !cudaVersionLiteral.isPrefixOf l then CudaVersion.UNKNOWN
  else
    let rest := l.drop cudaVersionLiteral.length
    let first := splitOnFirstChar rest '.'
    let second := splitOnFirstChar first.2 '.'
    match parseSignedInt10 first.1, parseSignedInt10 second.1 with
    | some major, some minor =>
      if major = 7 ∧ minor = 0 then CudaVersion.CUDA_70
      else if major = 7 ∧ minor = 5 then CudaVersion.CUDA_75
      else if major = 8 ∧ minor = 0 then CudaVersion.CUDA_80
      else CudaVersion.UNKNOWN
    | _, _ => CudaVersion.UNKNOWN

def ParseCudaVersionFile (v : String) : CudaVersion :=
  parseCudaVersionChars v.toList

/-- The virtual filesystem and environment the detector probes
(`D.getVFS()` existence checks, `getBufferForFile`, the libdevice/GCN
directory iterators, and `getenv`). `listDir` returns entry names of a
directory; `readFile` returns `none` when the file cannot be read. -/
structure VFS where
  fsExists : String → Bool
  readFile : String → Option String
  listDir : String → List String

/-- Version detection for a selected installation root (Cuda.cpp lines
104-112): a missing `version.txt` defaults to `CUDA_70`, otherwise the
buffer is parsed. -/
def detectVersion (fs : VFS) (installPath : String) : CudaVersion :=
  match fs.readFile (installPath ++ "/version.txt") with
  | none => CudaVersion.CUDA_70
  | some s => ParseCudaVersionFile s

/-- `LibDeviceMap` is a `std::map<std::string, std::string>`; we model it
by its lookup function, with `LibDeviceMap[K] = V` as a pointwise
update. -/
def LibDeviceMap := String → Option String

def mapInsert (m : LibDeviceMap) (k v : String) : LibDeviceMap :=
  fun x => if x = k then some v else m x

/-- `FileName.slice(LibDeviceName.size(), FileName.find('.',
LibDeviceName.size()))`: the characters after the 10-character marker
`libdevice.` and before the next dot (to the end if none). -/
def archFromLibDeviceName (fileName : String) : String :=
  String.mk ((fileName.toList.drop 10).takeWhile (fun c => c ≠ '.'))

/-- One iteration of the libdevice directory scan (Cuda.cpp lines
115-153): accept names of the form `libdevice.<arch>.bc`, record the
file under `<arch>`, then apply the hard-coded, version-conditioned
physical-architecture alias rules. -/
def processLibDeviceEntry (ver : CudaVersion) (dir fileName : String)
    (m : LibDeviceMap) : LibDeviceMap :=
  if !(strStartsWith fileName "libdevice." && strEndsWith fileName ".bc") then m
  else
    let filePath := dir ++ "/" ++ fileName
    let gpuArch := archFromLibDeviceName fileName
    let m := mapInsert m gpuArch filePath
    if gpuArch = "compute_20" then
      mapInsert (mapInsert (mapInsert m "sm_20" filePath) "sm_21" filePath) "sm_32" filePath
    else if gpuArch = "compute_30" then
      let m := mapInsert m "sm_30" filePath
      let m :=
        if ver.lt CudaVersion.CUDA_80 then
          mapInsert (mapInsert (mapInsert m "sm_50" filePath) "sm_52" filePath) "sm_53" filePath
        else m
      mapInsert (mapInsert (mapInsert m "sm_60" filePath) "sm_61" filePath) "sm_62" filePath
    else if gpuArch = "compute_35" then
      mapInsert (mapInsert m "sm_35" filePath) "sm_37" filePath
    else if gpuArch = "compute_50" then
      if !(ver.lt CudaVersion.CUDA_80) then
        mapInsert (mapInsert (mapInsert m "sm_50" filePath) "sm_52" filePath) "sm_53" filePath
      else m
    else m

/-- The whole libdevice directory scan over the directory's entries, in
iteration order. -/
def scanLibDevice (ver : CudaVersion) (dir : String) (entries : List String)
    (m : LibDeviceMap) : LibDeviceMap :=
  entries.foldl (fun m e => processLibDeviceEntry ver dir e m) m

/-- The mutable fields of `CudaInstallationDetector` written by the
constructor. -/
structure DetectorState where
  installPath : String
  binPath : String
  includePath : String
  libDevicePath : String
  libPath : String
  version : CudaVersion
  libDeviceMap : LibDeviceMap
  isValid : Bool

def initDetectorState : DetectorState :=
  { installPath := "",
    binPath := "",
    includePath := "",
    libDevicePath := "",
    libPath := "",
    version := CudaVersion.UNKNOWN,
    libDeviceMap := fun _ => none,
    isValid := false }

/-- The `lib64`/`lib` resolution for one candidate root (Cuda.cpp lines
97-102): `lib64` when the host is 64-bit and it exists, else `lib` when
it exists, else the candidate is rejected. -/
def checkLibPath (fs : VFS) (arch64 : Bool) (installPath : String) : Option String :=
  if arch64 && fs.fsExists (installPath ++ "/lib64") then some (installPath ++ "/lib64")
  else if fs.fsExists (installPath ++ "/lib") then some (installPath ++ "/lib")
  else none

/-- The state produced when candidate `c` passes every structural check:
all path fields are set from `c`, the version is read, the libdevice
directory is scanned, and the descriptor is marked valid (the `break`). -/
def selectCandidate (fs : VFS) (arch64 : Bool) (c : String)
    (st : DetectorState) : DetectorState :=
  let libDevicePath := c ++ "/nvvm/libdevice"
  let ver := detectVersion fs c
  { installPath := c,
    binPath := c ++ "/bin",
    includePath := c ++ "/include",
    libDevicePath := libDevicePath,
    libPath := (checkLibPath fs arch64 c).getD "",
    version := ver,
    libDeviceMap := scanLibDevice ver libDevicePath (fs.listDir libDevicePath) st.libDeviceMap,
    isValid := true }

/-- The candidate loop of the constructor (Cuda.cpp lines 77-157). A
candidate that fails the root-existence check leaves the state alone; a
candidate that fails the include/bin/libdevice or lib check has already
overwritten the path fields (as in the C++, which assigns them before
checking); the first fully satisfying candidate is selected and the loop
stops. -/
def searchCandidates (fs : VFS) (arch64 : Bool) :
    List String → DetectorState → DetectorState
  | [], st => st
  | c :: rest, st =>
    if c.isEmpty || !fs.fsExists c then searchCandidates fs arch64 rest st
    else
      let st1 := { st with
        installPath := c,
        binPath := c ++ "/bin",
        includePath := c ++ "/include",
        libDevicePath := c ++ "/nvvm/libdevice" }
      if !(fs.fsExists st1.includePath && fs.fsExists st1.binPath &&
           fs.fsExists st1.libDevicePath) then
        searchCandidates fs arch64 rest st1
      else
        match checkLibPath fs arch64 c with
        | none => searchCandidates fs arch64 rest st1
        | some lp =>
          let ver := detectVersion fs c
          { st1 with
            libPath := lp,
            version := ver,
            libDeviceMap := scanLibDevice ver st1.libDevicePath
              (fs.listDir st1.libDevicePath) st1.libDeviceMap,
            isValid := true }

/-- A candidate satisfies the structural requirements: non-empty
existing root, existing include/bin/libdevice directories, and a usable
lib directory. -/
def candidateOk (fs : VFS) (arch64 : Bool) (c : String) : Bool :=
  !c.isEmpty && fs.fsExists c && fs.fsExists (c ++ "/include") &&
    fs.fsExists (c ++ "/bin") && fs.fsExists (c ++ "/nvvm/libdevice") &&
    (checkLibPath fs arch64 c).isSome

/-- The constructor arguments the GCN-library search inspects:
`--cuda-gpu-arch=` occurrences and `--gcndevice-path=`. -/
inductive CtorArg where
  | cudaGpuArchArg (v : String)
  | gcndevicePathArg (v : String)
  | otherCtorArg
deriving DecidableEq

def isGfxArchArg : CtorArg → Bool
  | .cudaGpuArchArg v => strStartsWith v "gfx"
  | _ => false

/-- `Args.getLastArgValue(OPT_gcndevice_path_EQ)` guarded by `hasArg`. -/
def lastGcndevicePathValue (args : List CtorArg) : Option String :=
  args.foldl
    (fun acc a =>
      match a with
      | CtorArg.gcndevicePathArg v => some v
      | _ => acc)
    none

/-- Candidate roots for the GCN device libraries (Cuda.cpp lines
164-173): explicit `--gcndevice-path=` flag, else the `LIBAMDGCN`
environment override under the sysroot, else the fixed default. -/
def gcnPathCandidates (sysroot : String) (env : String → Option String)
    (args : List CtorArg) : List String :=
  match lastGcndevicePathValue args with
  | some v => [v]
  | none =>
    match env "LIBAMDGCN" with
    | some p => [sysroot ++ p]
    | none => [sysroot ++ "/opt/rocm/libamdgcn"]

/-- The inner candidate loop (Cuda.cpp lines 174-178): `GCNPath` keeps
the last non-empty existing candidate (no break). -/
def lastExistingPath (fs : VFS) (cands : List String) : String :=
  cands.foldl (fun acc c => if c.isEmpty || !fs.fsExists c then acc else c) ""

/-- The outer argument loop (Cuda.cpp lines 160-181): the GCN root is
resolved as soon as some `--cuda-gpu-arch=gfx...` argument is present,
and stays empty otherwise. -/
def findGcnPath (fs : VFS) (sysroot : String) (env : String → Option String)
    (args : List CtorArg) : String :=
  if args.any isGfxArchArg then lastExistingPath fs (gcnPathCandidates sysroot env args)
  else ""

/-- `llvm::StringRef::rsplit(c)`: split about the last occurrence of
`c`; if `c` does not occur the second component is empty. -/
def rsplitOnLastChar (l : List Char) (c : Char) : List Char × List Char :=
  if l.contains c then
    let r := splitOnFirstChar l.reverse c
    (r.2.reverse, r.1.reverse)
  else (l, [])

/-- One entry of the GCN device-library directory scan (Cuda.cpp lines
188-198): take the path component after the last `/`, require the `gfx`
marker and the expected support-library file, and record it. -/
def gcnScanStep (fs : VFS) (gcnPath entry : String) (m : LibDeviceMap) : LibDeviceMap :=
  let dirname := gcnPath ++ "/" ++ entry
  let gcnName := String.mk (rsplitOnLastChar dirname.toList '/').2
  if strStartsWith gcnName "gfx" then
    let oclFilePath := dirname ++ "/lib/opencl.amdgcn.bc"
    if fs.fsExists oclFilePath then mapInsert m gcnName oclFilePath else m
  else m

/-- The GCN device-library scan (Cuda.cpp lines 185-199), guarded by a
non-empty resolved root. -/
def gcnScanMap (fs : VFS) (gcnPath : String) (m : LibDeviceMap) : LibDeviceMap :=
  if gcnPath.isEmpty then m
  else (fs.listDir gcnPath).foldl (fun m e => gcnScanStep fs gcnPath e m) m

/-- The whole `CudaInstallationDetector` constructor: the numbered-family
candidate search followed by the GCN device-library scan, which only
extends `LibDeviceMap`. -/
def cudaInstallationDetector (fs : VFS) (arch64 : Bool) (sysroot : String)
    (env : String → Option String) (args : List CtorArg)
    (candidates : List String) : DetectorState :=
  let st1 := searchCandidates fs arch64 candidates initDetectorState
  let gcnPath := findGcnPath fs sysroot env args
  { st1 with libDeviceMap := gcnScanMap fs gcnPath st1.libDeviceMap }

/-- `enum class CudaArch` from `clang/Basic/Cuda.h` (the members this
file's logic distinguishes). -/
inductive CudaArch where
  | UNKNOWN
  | SM_20
  | SM_21
  | SM_30
  | SM_32
  | SM_35
  | SM_37
  | SM_50
  | SM_52
  | SM_53
  | SM_60
  | SM_61
  | SM_62
  | GFX700
  | GFX701
  | GFX801
  | GFX803
  | GFX900
deriving DecidableEq, Repr

/-- `ArchsWithVersionTooLowErrors` plus the stream of
`err_drv_cuda_version_too_low` diagnostics emitted so far (recorded by
the architecture they name). -/
structure PolicyState where
  warned : List CudaArch
  diags : List CudaArch

/-- `CheckCudaVersionSupportsArch` (Cuda.cpp lines 228-241). The minimum
version table `MinVersionForCudaArch` lives in `clang/Basic/Cuda.h`
outside this file, so it is a parameter. -/
def CheckCudaVersionSupportsArch (minVer : CudaArch → CudaVersion)
    (version : CudaVersion) (arch : CudaArch) (st : PolicyState) : PolicyState :=
  if arch = CudaArch.UNKNOWN ∨ version = CudaVersion.UNKNOWN ∨
      st.warned.contains arch then st
  else if version.lt (minVer arch) then
    { warned := arch :: st.warned, diags := st.diags ++ [arch] }
  else st

/-- Repeated invocation of the check for one architecture within one
detector lifetime. -/
def checkNTimes (minVer : CudaArch → CudaVersion) (version : CudaVersion)
    (arch : CudaArch) : Nat → PolicyState → PolicyState
  | 0, st => st
  | n + 1, st =>
    checkNTimes minVer version arch n
      (CheckCudaVersionSupportsArch minVer version arch st)

/-- The last `-O`-group argument on the host command line:
`-O0`, `-O4`, `-Ofast`, `-O<value>`, or another member of `O_Group`. -/
inductive OGroupArg where
  | optO0
  | optO4
  | optOfast
  | optO (value : String)
  | otherOGroup
deriving DecidableEq

/-- The `llvm::StringSwitch` over the `-O` value (Cuda.cpp lines
428-434). -/
def ptxasOOptSwitch (v : String) : String :=
  if v = "1" then "1"
  else if v = "2" then "2"
  else if v = "3" then "3"
  else if v = "s" then "2"
  else if v = "z" then "2"
  else "2"

/-- The `OOpt` computation (Cuda.cpp lines 420-435): start from "3",
handle `-O4`/`-Ofast`, then `-O0`, then joined `-O<value>`, leaving "3"
for any other `O_Group` form. -/
def ptxasOOpt (a : OGroupArg) : String :=
  if a = OGroupArg.optO4 ∨ a = OGroupArg.optOfast then "3"
  else if a = OGroupArg.optO0 then "0"
  else
    match a with
    | OGroupArg.optO v => ptxasOOptSwitch v
    | _ => "3"

/-- The optimization-related flags the ptxas job emits (Cuda.cpp lines
405-441): the debug flags when device debugging is requested, otherwise
`-O` with the mapped level, defaulting to `-O0` when the host passed no
`-O` option. -/
def ptxasOptArgs (debugFlag : Bool) (oArg : Option OGroupArg) : List String :=
  if debugFlag then ["-g", "--dont-merge-basicblocks", "--return-at-end"]
  else
    match oArg with
    | some a => ["-O" ++ ptxasOOpt a]
    | none => ["-O0"]

/-- `types::ID` of a device input, as far as this file distinguishes it
(`TY_PP_Asm` versus everything else). -/
inductive InputType where
  | ppAsm
  | objLike
deriving DecidableEq

/-- One entry of the fatbinary linker's `Inputs`: the offloading
architecture of its action, its type, and its filename. -/
structure DeviceInput where
  offloadingArch : String
  itype : InputType
  filename : String
deriving DecidableEq

/-- One emitted external tool invocation. -/
structure CommandSpec where
  exec : String
  cmdArgs : List String
deriving DecidableEq

/-- The `subarchs` accumulation (Cuda.cpp lines 526-538): every input
whose type is not preprocessed assembly contributes its offloading
architecture, comma-separated after the first. -/
def subarchsAux : List DeviceInput → String → Bool → String
  | [], acc, _ => acc
  | II :: rest, acc, first =>
    if II.itype ≠ InputType.ppAsm then
      if first then subarchsAux rest (acc ++ II.offloadingArch) false
      else subarchsAux rest (acc ++ "," ++ II.offloadingArch) false
    else subarchsAux rest acc first

def subarchsStr (inputs : List DeviceInput) : String :=
  subarchsAux inputs "-offload-archs=" true

/-- The `--image=...` (and `--no-asm`) arguments contributed by one
input (Cuda.cpp lines 491-517). `virtualName` stands for
`CudaVirtualArchToString(VirtualArchForCudaArch(StringToCudaArch(_)))`
from `clang/Basic/Cuda.h`, outside this file. -/
def imageArgsFor (virtualName : String → String) (II : DeviceInput) : List String :=
  if strStartsWith II.offloadingArch "gfx" then
    if II.itype ≠ InputType.ppAsm then
      ["--no-asm", "--image=profile=sm_37,file=" ++ II.filename]
    else []
  else
    let arch :=
      if II.itype = InputType.ppAsm then virtualName II.offloadingArch
      else II.offloadingArch
    ["--image=profile=" ++ arch ++ ",file=" ++ II.filename]

/-- `NVPTX::Linker::ConstructJob` (Cuda.cpp lines 464-548): one
fatbinary command — writing to a session temporary instead of the
declared output when a gfx input is present — followed in that case by
one `clang-fixup-fatbin` command carrying the subarch list, the
temporary, and the declared output. -/
def linkerConstructJob (virtualName : String → String) (arch64 : Bool)
    (driverDir fatbinaryExec tmpFatbin outputFile : String)
    (inputs : List DeviceInput) (xcudaFatbinaryArgs : List String) :
    List CommandSpec :=
  let foundGfx := inputs.any (fun II => strStartsWith II.offloadingArch "gfx")
  let fbOutputFile := if foundGfx then tmpFatbin else outputFile
  let cmdArgs :=
    ["--cuda", if arch64 then "-64" else "-32", "--create", fbOutputFile] ++
      (inputs.flatMap (imageArgsFor virtualName)) ++ xcudaFatbinaryArgs
  let fatbinCmd : CommandSpec := { exec := fatbinaryExec, cmdArgs := cmdArgs }
  if foundGfx then
    [fatbinCmd,
     { exec := driverDir ++ "/clang-fixup-fatbin",
       cmdArgs := [subarchsStr inputs, tmpFatbin, outputFile] }]
  else [fatbinCmd]

/-- Arguments as the `TranslateArgs` loop distinguishes them: an
`-Xarch_<arch> <payload>` argument, a `-march=` argument, or anything
else. -/
inductive TArg where
  | xarch (arch : String) (payload : String)
  | march (value : String)
  | otherTArg (payload : String)
deriving DecidableEq

def TArg.isMarch : TArg → Bool
  | .march _ => true
  | _ => false

/-- Outcome of `Opts.ParseOneArg` on the unpacked `-Xarch_` payload:
`none` models parse failure; otherwise the parsed argument together
with whether extra tokens were consumed (`Index > Prev + 1`) and whether
the parsed option carries the `DriverOption` flag. `ParseOneArg` and the
option table live outside this file, so the parser is a parameter. -/
structure ParsedXarch where
  parsed : TArg
  extraConsumed : Bool
  isDriverOpt : Bool

/-- The two `-Xarch_` rejection diagnostics
(`err_drv_invalid_Xarch_argument_with_args` and
`err_drv_invalid_Xarch_argument_isdriver`). -/
inductive XarchDiag where
  | withArgs
  | isDriver
deriving DecidableEq

/-- One iteration of the `TranslateArgs` loop (Cuda.cpp lines 628-660)
acting on the derived list and the emitted diagnostics. -/
def translateStep (parseOne : String → Option ParsedXarch) (boundArch : String)
    (acc : List TArg × List XarchDiag) (a : TArg) : List TArg × List XarchDiag :=
  match a with
  | TArg.xarch av payload =>
    if boundArch.isEmpty || av ≠ boundArch then acc
    else
      match parseOne payload with
      | none => (acc.1, acc.2 ++ [XarchDiag.withArgs])
      | some px =>
        if px.extraConsumed then (acc.1, acc.2 ++ [XarchDiag.withArgs])
        else if px.isDriverOpt then (acc.1, acc.2 ++ [XarchDiag.isDriver])
        else (acc.1 ++ [px.parsed], acc.2)
  | _ => (acc.1 ++ [a], acc.2)

def translateLoop (parseOne : String → Option ParsedXarch) (boundArch : String)
    (args : List TArg) (hostDAL : List TArg) : List TArg × List XarchDiag :=
  args.foldl (translateStep parseOne boundArch) (hostDAL, [])

/-- `CudaToolChain::TranslateArgs` (Cuda.cpp lines 617-667): the host
toolchain's derived list (a parameter, produced outside this file) is
extended by the loop, then — when an architecture is bound — every
`-march=` argument is erased and one pinned to the bound architecture is
appended. -/
def cudaTranslateArgs (parseOne : String → Option ParsedXarch)
    (hostDAL : List TArg) (boundArch : String) (args : List TArg) :
    List TArg × List XarchDiag :=
  let r := translateLoop parseOne boundArch args hostDAL
  if boundArch.isEmpty then r
  else (r.1.filter (fun a => !a.isMarch) ++ [TArg.march boundArch], r.2)

/-- Result of `CudaInstallationDetector::AddCudaIncludeArgs`: the
`CC1Args` additions and whether `err_drv_no_cuda_installation` was
emitted. -/
structure IncludeArgsResult where
  cc1Args : List String
  diagNoCudaInstallation : Bool
deriving DecidableEq

/-- `AddCudaIncludeArgs` (Cuda.cpp lines 202-226): the resource-dir
`cuda_wrappers` include is added unless `-nobuiltininc`; `-nocudainc`
then stops; an invalid installation emits the no-installation diagnostic
and stops; otherwise the installation include path and the runtime
wrapper are added. -/
def addCudaIncludeArgs (resourceDir includePath : String) (valid : Bool)
    (noBuiltinInc noCudaInc : Bool) : IncludeArgsResult :=
  let base :=
    if !noBuiltinInc then
      ["-internal-isystem", resourceDir ++ "/include/cuda_wrappers"]
    else []
  if noCudaInc then { cc1Args := base, diagNoCudaInstallation := false }
  else if !valid then { cc1Args := base, diagNoCudaInstallation := true }
  else
    { cc1Args := base ++
        ["-internal-isystem", includePath, "-include", "__clang_cuda_runtime_wrapper.h"],
      diagNoCudaInstallation := false }

/-- The offloading architectures of the non-assembly inputs, in input
order: the architectures the `subarchs` loop collects. -/
def subarchNames (inputs : List DeviceInput) : List String :=
  (inputs.filter (fun II => II.itype ≠ InputType.ppAsm)).map (fun II => II.offloadingArch)

def commaChain : List String → String
  | [] => ""
  | x :: xs => "," ++ x ++ commaChain xs

/-- Comma-separated join, the closed form of the `first`-flag
accumulation in `subarchsAux`. -/
def joinComma : List String → String
  | [] => ""
  | x :: xs => x ++ commaChain xs

/-- Test fixture: a filesystem in which only the root `/B` is a
structurally complete installation. -/
def fsB : VFS :=
  { fsExists := fun s => ["/B", "/B/include", "/B/bin", "/B/nvvm/libdevice", "/B/lib"].contains s,
    readFile := fun _ => none,
    listDir := fun _ => [] }

/-- Test fixture: a filesystem with a complete (but libdevice-empty)
installation at `/B` and a GCN device-library tree for `gfx900` at the
default root. -/
def fsGcn : VFS :=
  { fsExists := fun s => ["/B", "/B/include", "/B/bin", "/B/nvvm/libdevice", "/B/lib",
      "/opt/rocm/libamdgcn", "/opt/rocm/libamdgcn/gfx900/lib/opencl.amdgcn.bc"].contains s,
    readFile := fun _ => none,
    listDir := fun d => if d = "/opt/rocm/libamdgcn" then ["gfx900"] else [] }

/-- Test fixture: an empty environment. -/
def envNone : String → Option String := fun _ => none

end CudaDriver

namespace CudaDriver

/-- The libdevice scan step reads the detected version only through the
comparison with `CUDA_80`. -/
theorem processLibDeviceEntry_version_congr (ver1 ver2 : CudaVersion)
    (dir e : String) (m : LibDeviceMap)
    (hlt : ver1.lt CudaVersion.CUDA_80 = ver2.lt CudaVersion.CUDA_80) :
    processLibDeviceEntry ver1 dir e m = processLibDeviceEntry ver2 dir e m := by
  simp only [processLibDeviceEntry, hlt]

/-- The whole libdevice scan reads the detected version only through the
comparison with `CUDA_80`. -/
theorem scanLibDevice_version_congr (ver1 ver2 : CudaVersion)
    (dir : String) (entries : List String) (m : LibDeviceMap)
    (hlt : ver1.lt CudaVersion.CUDA_80 = ver2.lt CudaVersion.CUDA_80) :
    scanLibDevice ver1 dir entries m = scanLibDevice ver2 dir entries m := by
  induction entries generalizing m with
  | nil => rfl
  | cons e rest ih =>
    simp only [scanLibDevice, List.foldl_cons] at *
    rw [processLibDeviceEntry_version_congr ver1 ver2 dir e m hlt]
    exact ih _

/-- A structurally satisfying candidate at the head of the list is
selected immediately. -/
theorem searchCandidates_ok_head (fs : VFS) (a64 : Bool) (c : String)
    (rest : List String) (st : DetectorState)
    (h : candidateOk fs a64 c = true) :
    searchCandidates fs a64 (c :: rest) st = selectCandidate fs a64 c st := by
  simp only [candidateOk, Bool.and_eq_true] at h
  obtain ⟨⟨⟨⟨⟨hne, hex⟩, hinc⟩, hbin⟩, hdev⟩, hlib⟩ := h
  obtain ⟨lp, hlp⟩ := Option.isSome_iff_exists.mp hlib
  have hne2 : c.isEmpty = false := by simpa using hne
  simp only [searchCandidates]
  simp [hne2, hex, hinc, hbin, hdev, hlp, selectCandidate]

/-- A failing candidate at the head is skipped; the carried state
changes only in the path fields, never in `LibDeviceMap` or
`IsValid`. -/
theorem searchCandidates_fail_head (fs : VFS) (a64 : Bool) (c : String)
    (rest : List String) (st : DetectorState)
    (h : candidateOk fs a64 c = false) :
    ∃ st', searchCandidates fs a64 (c :: rest) st = searchCandidates fs a64 rest st' ∧
      st'.libDeviceMap = st.libDeviceMap ∧ st'.isValid = st.isValid := by
  simp only [searchCandidates]
  by_cases h1 : (c.isEmpty || !fs.fsExists c) = true
  · rw [if_pos h1]
    exact ⟨st, rfl, rfl, rfl⟩
  · rw [if_neg h1]
    by_cases h2 : (!(fs.fsExists (c ++ "/include") && fs.fsExists (c ++ "/bin") &&
        fs.fsExists (c ++ "/nvvm/libdevice"))) = true
    · rw [if_pos h2]
      exact ⟨_, rfl, rfl, rfl⟩
    · rw [if_neg h2]
      cases hlp : checkLibPath fs a64 c with
      | none => exact ⟨_, rfl, rfl, rfl⟩
      | some lp =>
        exfalso
        simp at h1 h2
        simp [candidateOk, h1.1, h1.2, h2.1.1, h2.1.2, h2.2, hlp] at h

/-- `selectCandidate` depends on the incoming state only through its
`LibDeviceMap`. -/
theorem selectCandidate_map_congr (fs : VFS) (a64 : Bool) (c : String)
    (st st' : DetectorState) (h : st.libDeviceMap = st'.libDeviceMap) :
    selectCandidate fs a64 c st = selectCandidate fs a64 c st' := by
  simp only [selectCandidate, h]

/-- Skipping a run of failing candidates preserves `LibDeviceMap` and
`IsValid`. -/
theorem searchCandidates_fail_all (fs : VFS) (a64 : Bool) (l : List String)
    (rest : List String) (st : DetectorState)
    (h : ∀ c ∈ l, candidateOk fs a64 c = false) :
    ∃ st', searchCandidates fs a64 (l ++ rest) st = searchCandidates fs a64 rest st' ∧
      st'.libDeviceMap = st.libDeviceMap ∧ st'.isValid = st.isValid := by
  induction l generalizing st with
  | nil => exact ⟨st, rfl, rfl, rfl⟩
  | cons c cs ih =>
    obtain ⟨st1, he, hm, hv⟩ := searchCandidates_fail_head fs a64 c (cs ++ rest) st
      (h c (List.mem_cons_self c cs))
    obtain ⟨st2, he2, hm2, hv2⟩ := ih st1 (fun x hx => h x (List.mem_cons_of_mem c hx))
    exact ⟨st2, by rw [List.cons_append, he, he2], by rw [hm2, hm], by rw [hv2, hv]⟩

/-- The version check is the identity once the architecture is in the
warning set. -/
theorem check_warned_id (minVer : CudaArch → CudaVersion) (version : CudaVersion)
    (arch : CudaArch) (st : PolicyState) (h : st.warned.contains arch = true) :
    CheckCudaVersionSupportsArch minVer version arch st = st := by
  have hm : arch ∈ st.warned := by simpa using h
  simp [CheckCudaVersionSupportsArch, hm]

/-- Iterating the version check is the identity once the architecture is
in the warning set. -/
theorem checkNTimes_warned_id (minVer : CudaArch → CudaVersion) (version : CudaVersion)
    (arch : CudaArch) (n : Nat) (st : PolicyState) (h : st.warned.contains arch = true) :
    checkNTimes minVer version arch n st = st := by
  induction n with
  | zero => rfl
  | succ k ih =>
    simp only [checkNTimes, check_warned_id minVer version arch st h]
    exact ih

/-- One translation step treats the accumulated diagnostics as a log:
its derived-list effect is independent of them and its diagnostics are
appended. -/
theorem translateStep_snd (parseOne : String → Option ParsedXarch) (boundArch : String)
    (d : List TArg) (ds : List XarchDiag) (a : TArg) :
    translateStep parseOne boundArch (d, ds) a =
      ((translateStep parseOne boundArch (d, []) a).1,
       ds ++ (translateStep parseOne boundArch (d, []) a).2) := by
  cases a with
  | xarch av payload =>
    simp only [translateStep]
    by_cases h1 : (boundArch.isEmpty || decide (av ≠ boundArch)) = true
    · simp only [if_pos h1]
      simp
    · simp only [if_neg h1]
      cases hp : parseOne payload with
      | none => simp
      | some px =>
        by_cases h2 : px.extraConsumed = true
        · simp only [hp, if_pos h2]
          simp
        · simp only [hp, if_neg h2]
          by_cases h3 : px.isDriverOpt = true
          · simp only [if_pos h3]
            simp
          · simp only [if_neg h3]
            simp
  | march v => simp [translateStep]
  | otherTArg p => simp [translateStep]

/-- The translation fold treats the accumulated diagnostics as a log. -/
theorem translateFold_snd (parseOne : String → Option ParsedXarch) (boundArch : String)
    (rest : List TArg) (d : List TArg) (ds : List XarchDiag) :
    rest.foldl (translateStep parseOne boundArch) (d, ds) =
      ((rest.foldl (translateStep parseOne boundArch) (d, [])).1,
       ds ++ (rest.foldl (translateStep parseOne boundArch) (d, [])).2) := by
  induction rest generalizing d ds with
  | nil => simp
  | cons a rest ih =>
    simp only [List.foldl_cons]
    rw [translateStep_snd parseOne boundArch d ds a]
    rw [ih ((translateStep parseOne boundArch (d, []) a).1)
        (ds ++ (translateStep parseOne boundArch (d, []) a).2)]
    rw [ih ((translateStep parseOne boundArch (d, []) a).1)
        ((translateStep parseOne boundArch (d, []) a).2)]
    simp [List.append_assoc]

/-- Closed form of the `subarchs` accumulation after the first
contribution. -/
theorem subarchsAux_false_eq (l : List DeviceInput) :
    ∀ acc : String, subarchsAux l acc false = acc ++ commaChain (subarchNames l) := by
  induction l with
  | nil => intro acc; simp [subarchsAux, subarchNames, commaChain, String.append_empty]
  | cons II rest ih =>
    intro acc
    by_cases h : II.itype = InputType.ppAsm
    · simp only [subarchsAux, h, subarchNames, List.filter_cons]
      simp only [subarchNames] at ih
      simp [ih]
    · simp only [subarchsAux, h, subarchNames, List.filter_cons]
      simp only [subarchNames] at ih
      simp [h, ih, commaChain, String.append_assoc]

/-- Closed form of the `subarchs` accumulation from its initial state. -/
theorem subarchsAux_true_eq (l : List DeviceInput) :
    ∀ acc : String, subarchsAux l acc true = acc ++ joinComma (subarchNames l) := by
  induction l with
  | nil => intro acc; simp [subarchsAux, subarchNames, joinComma, String.append_empty]
  | cons II rest ih =>
    intro acc
    by_cases h : II.itype = InputType.ppAsm
    · simp only [subarchsAux, h, subarchNames, List.filter_cons]
      simp only [subarchNames] at ih
      simp [ih]
    · simp only [subarchsAux, h, subarchNames, List.filter_cons]
      simp [h, subarchsAux_false_eq, subarchNames, joinComma, String.append_assoc]

/-- The fix-up target-list argument is the comma-separated list of the
offloading architectures of exactly the non-assembly inputs. -/
theorem subarchsStr_eq (inputs : List DeviceInput) :
    subarchsStr inputs = "-offload-archs=" ++ joinComma (subarchNames inputs) :=
  subarchsAux_true_eq inputs "-offload-archs="

end CudaDriver

namespace CudaDriver

/-- Claim C1: in the libdevice directory scan, a file for virtual
architecture `compute_30` makes `sm_50`/`sm_52`/`sm_53` alias to it
exactly when the detected version is strictly below `CUDA_80`; a file
for `compute_50` makes those three names alias to it exactly when the
detected version is at or above `CUDA_80`; and for identical directory
contents the resulting map depends on the detected version only through
the comparison with `CUDA_80`. -/
theorem claim_C1_version_conditioned_aliases :
    (∀ (ver : CudaVersion) (dir fileName : String) (m : LibDeviceMap),
      strStartsWith fileName "libdevice." = true →
      strEndsWith fileName ".bc" = true →
      archFromLibDeviceName fileName = "compute_30" →
      ((ver.lt CudaVersion.CUDA_80 = true →
          processLibDeviceEntry ver dir fileName m "sm_50" = some (dir ++ "/" ++ fileName) ∧
          processLibDeviceEntry ver dir fileName m "sm_52" = some (dir ++ "/" ++ fileName) ∧
          processLibDeviceEntry ver dir fileName m "sm_53" = some (dir ++ "/" ++ fileName)) ∧
       (ver.lt CudaVersion.CUDA_80 = false →
          processLibDeviceEntry ver dir fileName m "sm_50" = m "sm_50" ∧
          processLibDeviceEntry ver dir fileName m "sm_52" = m "sm_52" ∧
          processLibDeviceEntry ver dir fileName m "sm_53" = m "sm_53"))) ∧
    (∀ (ver : CudaVersion) (dir fileName : String) (m : LibDeviceMap),
      strStartsWith fileName "libdevice." = true →
      strEndsWith fileName ".bc" = true →
      archFromLibDeviceName fileName = "compute_50" →
      ((ver.lt CudaVersion.CUDA_80 = false →
          processLibDeviceEntry ver dir fileName m "sm_50" = some (dir ++ "/" ++ fileName) ∧
          processLibDeviceEntry ver dir fileName m "sm_52" = some (dir ++ "/" ++ fileName) ∧
          processLibDeviceEntry ver dir fileName m "sm_53" = some (dir ++ "/" ++ fileName)) ∧
       (ver.lt CudaVersion.CUDA_80 = true →
          processLibDeviceEntry ver dir fileName m "sm_50" = m "sm_50" ∧
          processLibDeviceEntry ver dir fileName m "sm_52" = m "sm_52" ∧
          processLibDeviceEntry ver dir fileName m "sm_53" = m "sm_53"))) ∧
    (∀ (ver1 ver2 : CudaVersion) (dir : String) (entries : List String) (m : LibDeviceMap),
      ver1.lt CudaVersion.CUDA_80 = ver2.lt CudaVersion.CUDA_80 →
      scanLibDevice ver1 dir entries m = scanLibDevice ver2 dir entries m) := by
  refine ⟨?_, ?_, ?_⟩
  · intro ver dir fileName m hs he ha
    constructor
    · intro hlt
      simp [processLibDeviceEntry, hs, he, ha, hlt, mapInsert]
    · intro hlt
      simp [processLibDeviceEntry, hs, he, ha, hlt, mapInsert]
  · intro ver dir fileName m hs he ha
    constructor
    · intro hlt
      simp [processLibDeviceEntry, hs, he, ha, hlt, mapInsert]
    · intro hlt
      simp [processLibDeviceEntry, hs, he, ha, hlt, mapInsert]
  · exact fun v1 v2 d e m h => scanLibDevice_version_congr v1 v2 d e m h

/-- Claim C1 witness: the `compute_30` aliases fire at `CUDA_75` and not
at `CUDA_80`, the `compute_50` aliases fire at `CUDA_80`, and two
versions on the same side of the threshold scan identically. -/
theorem claim_C1_witness :
    processLibDeviceEntry CudaVersion.CUDA_75 "/cuda/nvvm/libdevice"
        "libdevice.compute_30.10.bc" (fun _ => none) "sm_50" =
      some "/cuda/nvvm/libdevice/libdevice.compute_30.10.bc" ∧
    processLibDeviceEntry CudaVersion.CUDA_80 "/cuda/nvvm/libdevice"
        "libdevice.compute_30.10.bc" (fun _ => none) "sm_50" = none ∧
    processLibDeviceEntry CudaVersion.CUDA_80 "/cuda/nvvm/libdevice"
        "libdevice.compute_50.10.bc" (fun _ => none) "sm_52" =
      some "/cuda/nvvm/libdevice/libdevice.compute_50.10.bc" ∧
    scanLibDevice CudaVersion.CUDA_70 "/d" ["libdevice.compute_30.10.bc"] (fun _ => none) =
      scanLibDevice CudaVersion.CUDA_75 "/d" ["libdevice.compute_30.10.bc"] (fun _ => none) :=
  ⟨((claim_C1_version_conditioned_aliases.1 CudaVersion.CUDA_75 "/cuda/nvvm/libdevice"
      "libdevice.compute_30.10.bc" (fun _ => none) (by decide) (by decide) (by decide)).1
      (by decide)).1,
   ((claim_C1_version_conditioned_aliases.1 CudaVersion.CUDA_80 "/cuda/nvvm/libdevice"
      "libdevice.compute_30.10.bc" (fun _ => none) (by decide) (by decide) (by decide)).2
      (by decide)).1,
   ((claim_C1_version_conditioned_aliases.2.1 CudaVersion.CUDA_80 "/cuda/nvvm/libdevice"
      "libdevice.compute_50.10.bc" (fun _ => none) (by decide) (by decide) (by decide)).1
      (by decide)).2.1,
   claim_C1_version_conditioned_aliases.2.2 CudaVersion.CUDA_70 CudaVersion.CUDA_75 "/d"
      ["libdevice.compute_30.10.bc"] (fun _ => none) (by decide)⟩

/-- Claim C2: `"CUDA Version 8.0.44"` parses to `CUDA_80` and
`"CUDA Version 7.0"` to `CUDA_70`; a missing marker file yields the
legacy default `CUDA_70`; content without the literal marker text, with
an unparseable major or minor, or naming a pair other than 7.0, 7.5 or
8.0 parses to `UNKNOWN`. -/
theorem claim_C2_version_marker_parsing :
    ParseCudaVersionFile "CUDA Version 8.0.44" = CudaVersion.CUDA_80 ∧
    ParseCudaVersionFile "CUDA Version 7.0" = CudaVersion.CUDA_70 ∧
    (∀ (fs : VFS) (p : String), fs.readFile (p ++ "/version.txt") = none →
      detectVersion fs p = CudaVersion.CUDA_70) ∧
    (∀ l : List Char, cudaVersionLiteral.isPrefixOf l = false →
      parseCudaVersionChars l = CudaVersion.UNKNOWN) ∧
    (∀ l : List Char, cudaVersionLiteral.isPrefixOf l = true →
      (parseSignedInt10 (splitOnFirstChar (l.drop cudaVersionLiteral.length) '.').1 = none ∨
       parseSignedInt10 (splitOnFirstChar
         (splitOnFirstChar (l.drop cudaVersionLiteral.length) '.').2 '.').1 = none) →
      parseCudaVersionChars l = CudaVersion.UNKNOWN) ∧
    (∀ (l : List Char) (major minor : Int), cudaVersionLiteral.isPrefixOf l = true →
      parseSignedInt10 (splitOnFirstChar (l.drop cudaVersionLiteral.length) '.').1 =
        some major →
      parseSignedInt10 (splitOnFirstChar
        (splitOnFirstChar (l.drop cudaVersionLiteral.length) '.').2 '.').1 = some minor →
      ¬((major = 7 ∧ minor = 0) ∨ (major = 7 ∧ minor = 5) ∨ (major = 8 ∧ minor = 0)) →
      parseCudaVersionChars l = CudaVersion.UNKNOWN) := by
  refine ⟨by decide, by decide, ?_, ?_, ?_, ?_⟩
  · intro fs p h
    simp [detectVersion, h]
  · intro l h
    unfold parseCudaVersionChars
    rw [h]
    rfl
  · intro l h hnone
    unfold parseCudaVersionChars
    rw [h]
    simp only [Bool.not_true, Bool.false_eq_true, if_false]
    rcases hnone with h1 | h1
    · rw [h1]
    · rw [h1]
      cases parseSignedInt10 (splitOnFirstChar (l.drop cudaVersionLiteral.length) '.').1 <;> rfl
  · intro l major minor h hmaj hmin hnot
    push_neg at hnot
    unfold parseCudaVersionChars
    rw [h]
    simp only [Bool.not_true, Bool.false_eq_true, if_false]
    rw [hmaj, hmin]
    have h1 : ¬(major = 7 ∧ minor = 0) := by
      intro ⟨a, b⟩; exact absurd b (hnot.1 a)
    have h2 : ¬(major = 7 ∧ minor = 5) := by
      intro ⟨a, b⟩; exact absurd b (hnot.2.1 a)
    have h3 : ¬(major = 8 ∧ minor = 0) := by
      intro ⟨a, b⟩; exact absurd b (hnot.2.2 a)
    simp [h1, h2, h3]

/-- Claim C2 witness: a filesystem with no marker file defaults to
`CUDA_70`, and three malformed contents parse to `UNKNOWN`. -/
theorem claim_C2_witness :
    detectVersion ⟨fun _ => false, fun _ => none, fun _ => []⟩ "/usr/local/cuda" =
      CudaVersion.CUDA_70 ∧
    parseCudaVersionChars "hello".toList = CudaVersion.UNKNOWN ∧
    parseCudaVersionChars "CUDA Version x.0".toList = CudaVersion.UNKNOWN ∧
    parseCudaVersionChars "CUDA Version 9.0".toList = CudaVersion.UNKNOWN :=
  ⟨claim_C2_version_marker_parsing.2.2.1 ⟨fun _ => false, fun _ => none, fun _ => []⟩
      "/usr/local/cuda" rfl,
   claim_C2_version_marker_parsing.2.2.2.1 "hello".toList (by decide),
   claim_C2_version_marker_parsing.2.2.2.2.1 "CUDA Version x.0".toList (by decide)
      (Or.inl (by decide)),
   claim_C2_version_marker_parsing.2.2.2.2.2 "CUDA Version 9.0".toList 9 0 (by decide)
      (by decide) (by decide) (by decide)⟩

/-- Claim C3: the candidate search is order-respecting — after any run
of structurally failing candidates, the first satisfying candidate `b`
is selected (with `IsValid` set and the install root pinned to `b`)
independently of every later candidate; and when every candidate fails
the validity flag is left unchanged (so the descriptor stays
invalid). -/
theorem claim_C3_candidate_search_order :
    (∀ (fs : VFS) (a64 : Bool) (st : DetectorState) (pre post : List String) (b : String),
      (∀ c ∈ pre, candidateOk fs a64 c = false) →
      candidateOk fs a64 b = true →
      searchCandidates fs a64 (pre ++ b :: post) st = selectCandidate fs a64 b st ∧
      (searchCandidates fs a64 (pre ++ b :: post) st).isValid = true ∧
      (searchCandidates fs a64 (pre ++ b :: post) st).installPath = b) ∧
    (∀ (fs : VFS) (a64 : Bool) (st : DetectorState) (l : List String),
      (∀ c ∈ l, candidateOk fs a64 c = false) →
      (searchCandidates fs a64 l st).isValid = st.isValid) := by
  constructor
  · intro fs a64 st pre post b hpre hb
    obtain ⟨st1, he, hm, _⟩ := searchCandidates_fail_all fs a64 pre (b :: post) st hpre
    have hsel : searchCandidates fs a64 (pre ++ b :: post) st = selectCandidate fs a64 b st := by
      rw [he, searchCandidates_ok_head fs a64 b post st1 hb]
      exact selectCandidate_map_congr fs a64 b st1 st hm
    refine ⟨hsel, ?_, ?_⟩ <;> rw [hsel] <;> rfl
  · intro fs a64 st l hl
    obtain ⟨st1, he, _, hv⟩ := searchCandidates_fail_all fs a64 l [] st hl
    rw [List.append_nil] at he
    rw [he]
    exact hv

/-- Claim C3 witness: with only `/B` structurally valid, the search over
`[/A, /B, /C]` selects `/B` (never consulting `/C`), and a search over
only failing candidates leaves the descriptor invalid. -/
theorem claim_C3_witness :
    searchCandidates fsB true ["/A", "/B", "/C"] initDetectorState =
      selectCandidate fsB true "/B" initDetectorState ∧
    (searchCandidates fsB true ["/A", "/B", "/C"] initDetectorState).isValid = true ∧
    (searchCandidates fsB true ["/A", "/B", "/C"] initDetectorState).installPath = "/B" ∧
    (searchCandidates fsB true ["/A"] initDetectorState).isValid = false := by
  have h := claim_C3_candidate_search_order.1 fsB true initDetectorState ["/A"] ["/C"] "/B"
    (by decide) (by decide)
  have h2 := claim_C3_candidate_search_order.2 fsB true initDetectorState ["/A"] (by decide)
  exact ⟨h.1, h.2.1, h.2.2, by rw [h2]; rfl⟩

/-- Claim C4: the version-policy check emits no diagnostic when the
architecture or the detected version is `UNKNOWN`; and for a known
architecture whose minimum required version is strictly above the
(known) detected version, any number of invocations from a state not yet
warning for it emits exactly one diagnostic for that architecture. -/
theorem claim_C4_version_policy_dedup :
    (∀ (minVer : CudaArch → CudaVersion) (version : CudaVersion) (arch : CudaArch)
        (st : PolicyState),
      arch = CudaArch.UNKNOWN ∨ version = CudaVersion.UNKNOWN →
      CheckCudaVersionSupportsArch minVer version arch st = st) ∧
    (∀ (minVer : CudaArch → CudaVersion) (version : CudaVersion) (arch : CudaArch)
        (st : PolicyState) (n : Nat),
      arch ≠ CudaArch.UNKNOWN → version ≠ CudaVersion.UNKNOWN →
      version.lt (minVer arch) = true →
      st.warned.contains arch = false →
      (checkNTimes minVer version arch (n + 1) st).diags.count arch =
        st.diags.count arch + 1) := by
  constructor
  · intro minVer version arch st h
    rcases h with h | h
    · simp [CheckCudaVersionSupportsArch, h]
    · simp [CheckCudaVersionSupportsArch, h]
  · intro minVer version arch st n ha hv hlt hw
    have hnm : arch ∉ st.warned := by simpa using hw
    have hstep : CheckCudaVersionSupportsArch minVer version arch st =
        { warned := arch :: st.warned, diags := st.diags ++ [arch] } := by
      simp [CheckCudaVersionSupportsArch, ha, hv, hnm, hlt]
    have hrest : checkNTimes minVer version arch n
        { warned := arch :: st.warned, diags := st.diags ++ [arch] } =
        { warned := arch :: st.warned, diags := st.diags ++ [arch] } := by
      apply checkNTimes_warned_id
      simp [List.contains_cons]
    simp only [checkNTimes, hstep, hrest]
    simp [List.count_append]

/-- Claim C4 witness: the check is a no-op for the `UNKNOWN`
architecture, and three invocations for `SM_50` under a too-low version
produce exactly one diagnostic. -/
theorem claim_C4_witness :
    CheckCudaVersionSupportsArch (fun _ => CudaVersion.CUDA_75) CudaVersion.CUDA_70
      CudaArch.UNKNOWN { warned := [], diags := [] } = { warned := [], diags := [] } ∧
    (checkNTimes (fun _ => CudaVersion.CUDA_75) CudaVersion.CUDA_70 CudaArch.SM_50 3
      { warned := [], diags := [] }).diags.count CudaArch.SM_50 =
      ([] : List CudaArch).count CudaArch.SM_50 + 1 :=
  ⟨claim_C4_version_policy_dedup.1 (fun _ => CudaVersion.CUDA_75) CudaVersion.CUDA_70
      CudaArch.UNKNOWN { warned := [], diags := [] } (Or.inl rfl),
   claim_C4_version_policy_dedup.2 (fun _ => CudaVersion.CUDA_75) CudaVersion.CUDA_70
      CudaArch.SM_50 { warned := [], diags := [] } 2 (by decide) (by decide) (by decide) rfl⟩

end CudaDriver

namespace CudaDriver

/-- Claim C5 counterexample: for the inputs `[sm_70 object artifact,
gfx900 object artifact]` the fix-up command's target-list argument is
`-offload-archs=sm_70,gfx900` — it also names `sm_70`, so it does not
contain exactly the gfx target ids of the inputs. -/
theorem claim_C5_counterexample :
    subarchsStr [{ offloadingArch := "sm_70", itype := InputType.objLike,
                   filename := "sm70.cubin" },
                 { offloadingArch := "gfx900", itype := InputType.objLike,
                   filename := "gfx900.o" }] =
      "-offload-archs=sm_70,gfx900" ∧
    (linkerConstructJob (fun _ => "compute_70") true "/opt/llvm/bin" "fatbinary"
      "/tmp/FB_FIXUP.fatbin" "/out.fatbin"
      [{ offloadingArch := "sm_70", itype := InputType.objLike, filename := "sm70.cubin" },
       { offloadingArch := "gfx900", itype := InputType.objLike, filename := "gfx900.o" }]
      [])[1]? =
      some { exec := "/opt/llvm/bin/clang-fixup-fatbin",
             cmdArgs := ["-offload-archs=sm_70,gfx900", "/tmp/FB_FIXUP.fatbin",
               "/out.fatbin"] } ∧
    "-offload-archs=sm_70,gfx900" ≠ "-offload-archs=gfx900" := by decide

/-- Claim C5 (amended): with no gfx input, exactly one fatbinary command
is emitted, writing directly to the declared output, and no fix-up
command; with a gfx input, the fatbinary command writes to the session
temporary and is followed by exactly one `clang-fixup-fatbin` command
whose target-list argument names the offloading architectures of exactly
the non-assembly inputs (which are exactly the gfx target ids whenever
every numbered-family input is an assembly artifact). -/
theorem claim_C5_packaging_fixup :
    (∀ (vn : String → String) (a64 : Bool) (dd fbExec tmp out : String)
        (inputs : List DeviceInput) (extra : List String),
      inputs.any (fun II => strStartsWith II.offloadingArch "gfx") = false →
      linkerConstructJob vn a64 dd fbExec tmp out inputs extra =
        [{ exec := fbExec,
           cmdArgs := ["--cuda", if a64 then "-64" else "-32", "--create", out] ++
             inputs.flatMap (imageArgsFor vn) ++ extra }]) ∧
    (∀ (vn : String → String) (a64 : Bool) (dd fbExec tmp out : String)
        (inputs : List DeviceInput) (extra : List String),
      inputs.any (fun II => strStartsWith II.offloadingArch "gfx") = true →
      linkerConstructJob vn a64 dd fbExec tmp out inputs extra =
        [{ exec := fbExec,
           cmdArgs := ["--cuda", if a64 then "-64" else "-32", "--create", tmp] ++
             inputs.flatMap (imageArgsFor vn) ++ extra },
         { exec := dd ++ "/clang-fixup-fatbin",
           cmdArgs := [subarchsStr inputs, tmp, out] }]) ∧
    (∀ inputs : List DeviceInput,
      subarchsStr inputs = "-offload-archs=" ++ joinComma (subarchNames inputs)) := by
  refine ⟨?_, ?_, subarchsStr_eq⟩
  · intro vn a64 dd fbExec tmp out inputs extra h
    simp [linkerConstructJob, h]
  · intro vn a64 dd fbExec tmp out inputs extra h
    simp [linkerConstructJob, h]

/-- Claim C5 witness: two numbered-family artifacts produce a single
direct-to-output fatbinary command; a ptx `sm_70` artifact plus a
`gfx900` object produce the temporary-routed fatbinary command and a
fix-up command whose target list is exactly `gfx900`. -/
theorem claim_C5_witness :
    linkerConstructJob (fun _ => "compute_70") true "/opt/llvm/bin" "fatbinary" "/tmp/t.fatbin"
        "/out.fatbin"
        [{ offloadingArch := "sm_70", itype := InputType.objLike, filename := "sm70.cubin" },
         { offloadingArch := "sm_80", itype := InputType.objLike, filename := "sm80.cubin" }]
        [] =
      [{ exec := "fatbinary",
         cmdArgs := ["--cuda", "-64", "--create", "/out.fatbin",
           "--image=profile=sm_70,file=sm70.cubin", "--image=profile=sm_80,file=sm80.cubin"] }] ∧
    linkerConstructJob (fun _ => "compute_70") true "/opt/llvm/bin" "fatbinary" "/tmp/t.fatbin"
        "/out.fatbin"
        [{ offloadingArch := "sm_70", itype := InputType.ppAsm, filename := "sm70.s" },
         { offloadingArch := "gfx900", itype := InputType.objLike, filename := "gfx900.o" }]
        [] =
      [{ exec := "fatbinary",
         cmdArgs := ["--cuda", "-64", "--create", "/tmp/t.fatbin",
           "--image=profile=compute_70,file=sm70.s",
           "--no-asm", "--image=profile=sm_37,file=gfx900.o"] },
       { exec := "/opt/llvm/bin/clang-fixup-fatbin",
         cmdArgs := ["-offload-archs=gfx900", "/tmp/t.fatbin", "/out.fatbin"] }] := by
  constructor
  · have h := claim_C5_packaging_fixup.1 (fun _ => "compute_70") true "/opt/llvm/bin"
      "fatbinary" "/tmp/t.fatbin" "/out.fatbin"
      [{ offloadingArch := "sm_70", itype := InputType.objLike, filename := "sm70.cubin" },
       { offloadingArch := "sm_80", itype := InputType.objLike, filename := "sm80.cubin" }] []
      (by decide)
    rw [h]
    decide
  · have h := claim_C5_packaging_fixup.2.1 (fun _ => "compute_70") true "/opt/llvm/bin"
      "fatbinary" "/tmp/t.fatbin" "/out.fatbin"
      [{ offloadingArch := "sm_70", itype := InputType.ppAsm, filename := "sm70.s" },
       { offloadingArch := "gfx900", itype := InputType.objLike, filename := "gfx900.o" }] []
      (by decide)
    rw [h]
    decide

/-- Claim C6: the ptxas optimization-level mapping is total — no host
`-O` option yields `-O0`; `-O` with value `s` or `z` yields `-O2`; `-O0`
yields `-O0`; `-O4` and `-Ofast` yield `-O3`; any unrecognised `-O`
value yields `-O2`; any other `O_Group` form yields `-O3`; and in every
case exactly one `-O` flag is emitted. -/
theorem claim_C6_ptxas_opt_mapping :
    ptxasOptArgs false none = ["-O0"] ∧
    ptxasOptArgs false (some (OGroupArg.optO "s")) = ["-O2"] ∧
    ptxasOptArgs false (some (OGroupArg.optO "z")) = ["-O2"] ∧
    ptxasOptArgs false (some OGroupArg.optO0) = ["-O0"] ∧
    ptxasOptArgs false (some OGroupArg.optO4) = ["-O3"] ∧
    ptxasOptArgs false (some OGroupArg.optOfast) = ["-O3"] ∧
    ptxasOptArgs false (some OGroupArg.otherOGroup) = ["-O3"] ∧
    (∀ v : String, v ≠ "1" → v ≠ "2" → v ≠ "3" → v ≠ "s" → v ≠ "z" →
      ptxasOptArgs false (some (OGroupArg.optO v)) = ["-O2"]) ∧
    (∀ oArg : Option OGroupArg, ∃ s : String, ptxasOptArgs false oArg = [s]) := by
  refine ⟨by decide, by decide, by decide, by decide, by decide, by decide, by decide, ?_, ?_⟩
  · intro v h1 h2 h3 hs hz
    simp [ptxasOptArgs, ptxasOOpt, ptxasOOptSwitch, h1, h2, h3, hs, hz]
  · intro oArg
    cases oArg with
    | none => exact ⟨"-O0", rfl⟩
    | some a => exact ⟨"-O" ++ ptxasOOpt a, rfl⟩

/-- Claim C6 witness: two unrecognised `-O` values map to `-O2`. -/
theorem claim_C6_witness :
    ptxasOptArgs false (some (OGroupArg.optO "g")) = ["-O2"] ∧
    ptxasOptArgs false (some (OGroupArg.optO "fast")) = ["-O2"] :=
  ⟨claim_C6_ptxas_opt_mapping.2.2.2.2.2.2.2.1 "g" (by decide) (by decide) (by decide)
      (by decide) (by decide),
   claim_C6_ptxas_opt_mapping.2.2.2.2.2.2.2.1 "fast" (by decide) (by decide) (by decide)
      (by decide) (by decide)⟩

/-- Claim C7: the GCN device-library scan never touches the
numbered-family validity flag, and its contribution to `LibDeviceMap`
is the same function of the flags, environment and filesystem whatever
the outcome of the numbered-family search — two candidate lists whose
numbered searches build the same map yield detectors with identical
final maps, even when one search succeeded and the other failed. -/
theorem claim_C7_gcn_scan_unconditional :
    (∀ (fs : VFS) (a64 : Bool) (sr : String) (env : String → Option String)
        (args : List CtorArg) (cands : List String),
      (cudaInstallationDetector fs a64 sr env args cands).isValid =
        (searchCandidates fs a64 cands initDetectorState).isValid) ∧
    (∀ (fs : VFS) (a64 : Bool) (sr : String) (env : String → Option String)
        (args : List CtorArg) (c1 c2 : List String),
      (searchCandidates fs a64 c1 initDetectorState).libDeviceMap =
        (searchCandidates fs a64 c2 initDetectorState).libDeviceMap →
      (cudaInstallationDetector fs a64 sr env args c1).libDeviceMap =
        (cudaInstallationDetector fs a64 sr env args c2).libDeviceMap) := by
  constructor
  · intro fs a64 sr env args cands
    rfl
  · intro fs a64 sr env args c1 c2 h
    simp only [cudaInstallationDetector, h]

/-- Claim C7 witness: with no numbered-family candidate at all (search
fails, descriptor invalid) and with a valid `/B` installation, the GCN
scan contributes the same `gfx900` entry; the invalid detector still
carries it. -/
theorem claim_C7_witness :
    (cudaInstallationDetector fsGcn true "" envNone [CtorArg.cudaGpuArchArg "gfx900"]
      []).isValid = (searchCandidates fsGcn true [] initDetectorState).isValid ∧
    (cudaInstallationDetector fsGcn true "" envNone [CtorArg.cudaGpuArchArg "gfx900"]
      []).libDeviceMap =
      (cudaInstallationDetector fsGcn true "" envNone [CtorArg.cudaGpuArchArg "gfx900"]
        ["/B"]).libDeviceMap ∧
    (cudaInstallationDetector fsGcn true "" envNone [CtorArg.cudaGpuArchArg "gfx900"]
      []).isValid = false ∧
    (cudaInstallationDetector fsGcn true "" envNone [CtorArg.cudaGpuArchArg "gfx900"]
      ["/B"]).isValid = true ∧
    (cudaInstallationDetector fsGcn true "" envNone [CtorArg.cudaGpuArchArg "gfx900"]
      []).libDeviceMap "gfx900" = some "/opt/rocm/libamdgcn/gfx900/lib/opencl.amdgcn.bc" :=
  ⟨claim_C7_gcn_scan_unconditional.1 fsGcn true "" envNone [CtorArg.cudaGpuArchArg "gfx900"] [],
   claim_C7_gcn_scan_unconditional.2 fsGcn true "" envNone [CtorArg.cudaGpuArchArg "gfx900"]
     [] ["/B"] rfl,
   by decide, by decide, by decide⟩

end CudaDriver

namespace CudaDriver

/-- Claim C8: in the `-Xarch_` translation loop, an argument whose
architecture does not match the bound architecture (or any such argument
when none is bound) is dropped without diagnostic; a matching argument
whose payload fails to parse, consumes extra tokens, or is a top-level
driver option is discarded with one diagnostic while translation of the
remaining arguments continues; a matching valid argument contributes its
unpacked form to the derived list. -/
theorem claim_C8_xarch_translation :
    (∀ (parseOne : String → Option ParsedXarch) (boundArch av payload : String)
        (rest hostDAL : List TArg),
      (boundArch.isEmpty = true ∨ av ≠ boundArch) →
      translateLoop parseOne boundArch (TArg.xarch av payload :: rest) hostDAL =
        translateLoop parseOne boundArch rest hostDAL) ∧
    (∀ (parseOne : String → Option ParsedXarch) (boundArch payload : String)
        (rest hostDAL : List TArg),
      boundArch.isEmpty = false →
      parseOne payload = none →
      translateLoop parseOne boundArch (TArg.xarch boundArch payload :: rest) hostDAL =
        ((translateLoop parseOne boundArch rest hostDAL).1,
         XarchDiag.withArgs :: (translateLoop parseOne boundArch rest hostDAL).2)) ∧
    (∀ (parseOne : String → Option ParsedXarch) (boundArch payload : String)
        (rest hostDAL : List TArg) (px : ParsedXarch),
      boundArch.isEmpty = false →
      parseOne payload = some px →
      px.extraConsumed = true →
      translateLoop parseOne boundArch (TArg.xarch boundArch payload :: rest) hostDAL =
        ((translateLoop parseOne boundArch rest hostDAL).1,
         XarchDiag.withArgs :: (translateLoop parseOne boundArch rest hostDAL).2)) ∧
    (∀ (parseOne : String → Option ParsedXarch) (boundArch payload : String)
        (rest hostDAL : List TArg) (px : ParsedXarch),
      boundArch.isEmpty = false →
      parseOne payload = some px →
      px.extraConsumed = false →
      px.isDriverOpt = true →
      translateLoop parseOne boundArch (TArg.xarch boundArch payload :: rest) hostDAL =
        ((translateLoop parseOne boundArch rest hostDAL).1,
         XarchDiag.isDriver :: (translateLoop parseOne boundArch rest hostDAL).2)) ∧
    (∀ (parseOne : String → Option ParsedXarch) (boundArch payload : String)
        (rest hostDAL : List TArg) (px : ParsedXarch),
      boundArch.isEmpty = false →
      parseOne payload = some px →
      px.extraConsumed = false →
      px.isDriverOpt = false →
      translateLoop parseOne boundArch (TArg.xarch boundArch payload :: rest) hostDAL =
        translateLoop parseOne boundArch rest (hostDAL ++ [px.parsed])) := by
  refine ⟨?_, ?_, ?_, ?_, ?_⟩
  · intro parseOne boundArch av payload rest hostDAL h
    have hb : (boundArch.isEmpty || decide (av ≠ boundArch)) = true := by
      rcases h with h | h
      · simp [h]
      · simp [h]
    simp only [translateLoop, List.foldl_cons, translateStep, if_pos hb]
  · intro parseOne boundArch payload rest hostDAL hbe hp
    have hb : ¬(boundArch.isEmpty || decide (boundArch ≠ boundArch)) = true := by
      simp [hbe]
    simp only [translateLoop, List.foldl_cons, translateStep, if_neg hb, hp]
    rw [translateFold_snd]
    simp
  · intro parseOne boundArch payload rest hostDAL px hbe hp hx
    have hb : ¬(boundArch.isEmpty || decide (boundArch ≠ boundArch)) = true := by
      simp [hbe]
    simp only [translateLoop, List.foldl_cons, translateStep, if_neg hb, hp, if_pos hx]
    rw [translateFold_snd]
    simp
  · intro parseOne boundArch payload rest hostDAL px hbe hp hx hd
    have hb : ¬(boundArch.isEmpty || decide (boundArch ≠ boundArch)) = true := by
      simp [hbe]
    simp only [translateLoop, List.foldl_cons, translateStep, if_neg hb, hp, hx,
      Bool.false_eq_true, if_false, if_pos hd]
    rw [translateFold_snd]
    simp
  · intro parseOne boundArch payload rest hostDAL px hbe hp hx hd
    have hb : ¬(boundArch.isEmpty || decide (boundArch ≠ boundArch)) = true := by
      simp [hbe]
    simp only [translateLoop, List.foldl_cons, translateStep, if_neg hb, hp, hx, hd,
      Bool.false_eq_true, if_false]

/-- Claim C8 witness: with architecture `sm_70` bound, a `sm_60`-scoped
argument is dropped silently, an unparseable matching argument is
discarded with one diagnostic while the rest still translates, and a
valid matching argument is unpacked into the derived list. -/
theorem claim_C8_witness :
    translateLoop (fun _ => none) "sm_70"
        [TArg.xarch "sm_60" "-ffast-math", TArg.otherTArg "-g"] [] =
      translateLoop (fun _ => none) "sm_70" [TArg.otherTArg "-g"] [] ∧
    translateLoop (fun _ => none) "sm_70"
        [TArg.xarch "sm_70" "-ffast-math", TArg.otherTArg "-g"] [] =
      ((translateLoop (fun _ => none) "sm_70" [TArg.otherTArg "-g"] []).1,
       XarchDiag.withArgs ::
         (translateLoop (fun _ => none) "sm_70" [TArg.otherTArg "-g"] []).2) ∧
    translateLoop
        (fun s => some { parsed := TArg.otherTArg s, extraConsumed := false, isDriverOpt := false })
        "sm_70" [TArg.xarch "sm_70" "-ffast-math"] [] =
      translateLoop
        (fun s => some { parsed := TArg.otherTArg s, extraConsumed := false, isDriverOpt := false })
        "sm_70" [] [TArg.otherTArg "-ffast-math"] :=
  ⟨claim_C8_xarch_translation.1 (fun _ => none) "sm_70" "sm_60" "-ffast-math"
      [TArg.otherTArg "-g"] [] (Or.inr (by decide)),
   claim_C8_xarch_translation.2.1 (fun _ => none) "sm_70" "-ffast-math"
      [TArg.otherTArg "-g"] [] (by decide) rfl,
   claim_C8_xarch_translation.2.2.2.2
      (fun s => some { parsed := TArg.otherTArg s, extraConsumed := false, isDriverOpt := false })
      "sm_70" "-ffast-math" [] []
      { parsed := TArg.otherTArg "-ffast-math", extraConsumed := false, isDriverOpt := false }
      (by decide) rfl rfl rfl⟩

/-- Claim C9: whenever an architecture is bound, the derived list ends
with a `-march=` argument pinned to the bound architecture and contains
exactly one `-march=` argument — pre-existing ones are erased and the
pinned one is appended even if none was present. -/
theorem claim_C9_march_pinned :
    ∀ (parseOne : String → Option ParsedXarch) (hostDAL : List TArg)
      (boundArch : String) (args : List TArg),
      boundArch.isEmpty = false →
      (cudaTranslateArgs parseOne hostDAL boundArch args).1.getLast? =
          some (TArg.march boundArch) ∧
      (cudaTranslateArgs parseOne hostDAL boundArch args).1.countP
          (fun a => a.isMarch) = 1 := by
  intro parseOne hostDAL boundArch args h
  simp only [cudaTranslateArgs, h, Bool.false_eq_true, if_false]
  constructor
  · exact List.getLast?_concat _
  · rw [List.countP_append]
    have h0 : ((translateLoop parseOne boundArch args hostDAL).1.filter
        (fun a => !a.isMarch)).countP (fun a => a.isMarch) = 0 := by
      rw [List.countP_eq_zero]
      intro a ha
      have := List.of_mem_filter ha
      simpa using this
    rw [h0]
    simp [TArg.isMarch]

/-- Claim C9 witness: with `sm_70` bound, a host-derived `-march=sm_60`
is erased and the pinned `-march=sm_70` ends the list; the same holds
when no `-march=` was present at all. -/
theorem claim_C9_witness :
    (cudaTranslateArgs (fun _ => none) [TArg.march "sm_60"] "sm_70"
        [TArg.otherTArg "-g"]).1.getLast? = some (TArg.march "sm_70") ∧
    (cudaTranslateArgs (fun _ => none) [TArg.march "sm_60"] "sm_70"
        [TArg.otherTArg "-g"]).1.countP (fun a => a.isMarch) = 1 ∧
    (cudaTranslateArgs (fun _ => none) [] "sm_70" []).1.getLast? =
      some (TArg.march "sm_70") ∧
    (cudaTranslateArgs (fun _ => none) [] "sm_70" []).1.countP
      (fun a => a.isMarch) = 1 :=
  ⟨(claim_C9_march_pinned (fun _ => none) [TArg.march "sm_60"] "sm_70"
      [TArg.otherTArg "-g"] (by decide)).1,
   (claim_C9_march_pinned (fun _ => none) [TArg.march "sm_60"] "sm_70"
      [TArg.otherTArg "-g"] (by decide)).2,
   (claim_C9_march_pinned (fun _ => none) [] "sm_70" [] (by decide)).1,
   (claim_C9_march_pinned (fun _ => none) [] "sm_70" [] (by decide)).2⟩

/-- Claim C10: the resource-directory `cuda_wrappers` include pair is
added whenever `-nobuiltininc` is absent, whatever the validity of the
installation; the no-installation diagnostic is emitted exactly when the
installation is invalid and `-nocudainc` is absent; and in that case no
installation include path or runtime-wrapper include is added. -/
theorem claim_C10_include_args :
    (∀ (rd ip : String) (valid noCudaInc : Bool),
      (addCudaIncludeArgs rd ip valid false noCudaInc).cc1Args.take 2 =
        ["-internal-isystem", rd ++ "/include/cuda_wrappers"]) ∧
    (∀ (rd ip : String) (valid noBuiltinInc noCudaInc : Bool),
      (addCudaIncludeArgs rd ip valid noBuiltinInc noCudaInc).diagNoCudaInstallation =
        (!valid && !noCudaInc)) ∧
    (∀ (rd ip : String) (noBuiltinInc : Bool),
      (addCudaIncludeArgs rd ip false noBuiltinInc false).cc1Args =
        (if noBuiltinInc then []
         else ["-internal-isystem", rd ++ "/include/cuda_wrappers"])) := by
  refine ⟨?_, ?_, ?_⟩
  · intro rd ip valid noCudaInc
    cases valid <;> cases noCudaInc <;> simp [addCudaIncludeArgs]
  · intro rd ip valid noBuiltinInc noCudaInc
    cases valid <;> cases noBuiltinInc <;> cases noCudaInc <;> simp [addCudaIncludeArgs]
  · intro rd ip noBuiltinInc
    cases noBuiltinInc <;> simp [addCudaIncludeArgs]

end CudaDriver
